import Mathlib

/-!
Shallow embedding of the autonomous tracking drone controller
(src/autonomous_tracking.py together with src/config.py).

Modelling conventions:
  - Python machine integers are modelled as Lean `Int`; Python floor
    division `//` is `Int.fdiv`.
  - Python floats (PID gains, recognition distances) are modelled as `ℚ`;
    `int(...)` applied to a float truncates toward zero, modelled by
    `truncQ`; `np.clip(v, lo, hi)` is `qclamp`.
  - The module-level constants of config.py are gathered into a `Config`
    record passed explicitly; `defaultConfig` holds the values of
    config.py.
  - `drone.send_rc_control(lr, fb, ud, yaw)` is the one side effect of a
    tracking cycle; `trackFace` therefore returns the `MotionCommand` it
    sends together with the error value it returns, and `time.sleep` is
    not modelled.
  - The recognition loop of `detect_and_recognize` consults the external
    face_recognition library for each detected box; each iteration is
    abstracted into a `Detection` record holding the bounding box, whether
    `matches[best_match_index]` was true with a nonempty known set
    (`recognized`), and the recognition distance
    `face_distances[best_match_index]` (`dist`).
-/

namespace Vtol

/-- Configuration record mirroring the module-level constants of config.py. -/
structure Config where
  frameWidth : Int
  frameHeight : Int
  kp : ℚ
  kd : ℚ
  ki : ℚ
  fbMin : Int
  fbMax : Int
  fbSpeed : Int
  searchSpeed : Int
  searchDelay : ℚ
  minBattery : Int
  takeoffHeight : Int
deriving DecidableEq

/-- The concrete values assigned in config.py. -/
def defaultConfig : Config where
  frameWidth := 360
  frameHeight := 240
  kp := 2/5
  kd := 2/5
  ki := 0
  fbMin := 3000
  fbMax := 5000
  fbSpeed := 25
  searchSpeed := 20
  searchDelay := 4/5
  minBattery := 50
  takeoffHeight := 30

/-- The four-component argument of drone.send_rc_control:
(left/right, forward/back, up/down, yaw). -/
structure MotionCommand where
  lr : Int
  fb : Int
  ud : Int
  yaw : Int
deriving DecidableEq

/-- Saturating clamp, the behaviour of np.clip on a scalar. -/
def qclamp (q lo hi : ℚ) : ℚ := max lo (min q hi)

/-- Conversion of a float to a machine integer by Python int(), which
truncates toward zero. -/
def truncQ (q : ℚ) : Int := if 0 ≤ q then ⌊q⌋ else ⌈q⌉

/-- The horizontal error computed by track_face:
error_x = x - frame_width // 2. -/
def pidError (cfg : Config) (x : Int) : Int := x - Int.fdiv cfg.frameWidth 2

/-- The raw PD speed computed by track_face:
speed_x = pid[0] * error_x + pid[1] * (error_x - prev_error). -/
def pidRaw (cfg : Config) (x prevError : Int) : ℚ :=
  cfg.kp * (pidError cfg x : ℚ) + cfg.kd * ((pidError cfg x : ℚ) - (prevError : ℚ))

/-- The clamped integer yaw speed of track_face:
speed_x = int(np.clip(speed_x, -100, 100)). -/
def pidYaw (cfg : Config) (x prevError : Int) : Int :=
  truncQ (qclamp (pidRaw cfg x prevError) (-100) 100)

/-- The common tail of track_face after the distance branches: the reset
when x == 0, the send_rc_control call with the chosen forward/back speed,
and the returned error. -/
def sendTail (x fb speedX errorX : Int) : MotionCommand × Int :=
  if x = 0 then (⟨0, fb, 0, 0⟩, 0) else (⟨0, fb, 0, speedX⟩, errorX)

/-- One call of track_face: takes face_info = ((x, y), area) and the
previous error, and produces the MotionCommand passed to
drone.send_rc_control together with the returned error.  The branch
structure mirrors the source: the three distance bands assign fb (which
is initialised to 0 and untouched when no band matches), the area == 0
branch returns the search command early, and every other path falls
through to the common send-and-return tail. -/
def trackFace (cfg : Config) (faceInfo : (Int × Int) × Int) (prevError : Int) :
    MotionCommand × Int :=
  let x := faceInfo.1.1
  let area := faceInfo.2
  let errorX := pidError cfg x
  let speedX := pidYaw cfg x prevError
  if cfg.fbMin < area ∧ area < cfg.fbMax then
    sendTail x 0 speedX errorX
  else if area > cfg.fbMax then
    sendTail x (-cfg.fbSpeed) speedX errorX
  else if 0 < area ∧ area < cfg.fbMin then
    sendTail x cfg.fbSpeed speedX errorX
  else if area = 0 then
    (⟨0, 0, 0, cfg.searchSpeed⟩, 0)
  else
    sendTail x 0 speedX errorX

/-- One candidate face of the recognition loop in detect_and_recognize:
its bounding box (top, right, bottom, left) and the outcome of the
external recognition step for it — whether matches[best_match_index]
held with a nonempty known set, and the corresponding distance. -/
structure Detection where
  top : Int
  right : Int
  bottom : Int
  left : Int
  recognized : Bool
  dist : ℚ
deriving DecidableEq

/-- center_x = (left + right) // 2. -/
def Detection.centerX (d : Detection) : Int := Int.fdiv (d.left + d.right) 2

/-- center_y = (top + bottom) // 2. -/
def Detection.centerY (d : Detection) : Int := Int.fdiv (d.top + d.bottom) 2

/-- area = (right - left) * (bottom - top). -/
def Detection.area (d : Detection) : Int := (d.right - d.left) * (d.bottom - d.top)

/-- The selected target of a cycle: ([center_x, center_y], area). -/
abbrev TargetInfo := (Int × Int) × Int

/-- One iteration of the selection loop of detect_and_recognize.  The
accumulator carries best_info together with best_distance, where `none`
stands for the initial float("inf"). -/
def selStep (acc : TargetInfo × Option ℚ) (d : Detection) : TargetInfo × Option ℚ :=
  if d.recognized then
    match acc.2 with
    | none => (((d.centerX, d.centerY), d.area), some d.dist)
    | some b =>
        if d.dist < b then (((d.centerX, d.centerY), d.area), some d.dist) else acc
  else acc

/-- The target selection of detect_and_recognize: starting from
best_info = ([0, 0], 0) and best_distance = float("inf"), keep the
recognized detection with strictly smaller distance. -/
def selectTarget (dets : List Detection) : TargetInfo :=
  (dets.foldl selStep (((0, 0), 0), none)).1

/-- The startup gates of main() before the control loop: it exits when
the battery reading is below MIN_BATTERY or when no known-face encodings
loaded; `numEncodings` abstracts the length of the loaded encodings
list.  No other check precedes the loop. -/
def startupAborts (cfg : Config) (battery : Int) (numEncodings : Nat) : Bool :=
  if battery < cfg.minBattery then true
  else if numEncodings = 0 then true
  else false

/-- Helper: the forward/back component sent by the common tail is exactly
the fb value the branch chose, whether or not x is 0. -/
theorem sendTail_fb (x fb s e : Int) : (sendTail x fb s e).1.fb = fb := by
  unfold sendTail
  split <;> rfl

/-- Helper: the saturating clamp to [-100, 100] lands in [-100, 100]. -/
theorem qclamp_range (q : ℚ) : -100 ≤ qclamp q (-100) 100 ∧ qclamp q (-100) 100 ≤ 100 := by
  unfold qclamp
  refine ⟨le_max_left _ _, max_le (by norm_num) (min_le_right _ _)⟩

/-- Helper: truncation toward zero of a rational in [-100, 100] stays in
[-100, 100]. -/
theorem truncQ_range {q : ℚ} (h1 : -100 ≤ q) (h2 : q ≤ 100) :
    -100 ≤ truncQ q ∧ truncQ q ≤ 100 := by
  unfold truncQ
  split
  · constructor
    · have : (0 : Int) ≤ ⌊q⌋ := Int.floor_nonneg.mpr (by assumption)
      omega
    · have : ⌊q⌋ ≤ ⌊(100 : ℚ)⌋ := Int.floor_le_floor h2
      simpa using this
  · constructor
    · have : ⌈(-100 : ℚ)⌉ ≤ ⌈q⌉ := Int.ceil_le_ceil h1
      simpa using this
    · have : ⌈q⌉ ≤ ⌈(100 : ℚ)⌉ := Int.ceil_le_ceil h2
      simpa using this

/-- C5: with target x = 0, frame_width = 360, previous_error = 0 and the
configured gains kp = kd = 0.4, the PID axis computation yields
error = -180, raw speed -144, and clamped integer yaw output -100. -/
theorem C5_scenario_B :
    pidError defaultConfig 0 = -180 ∧ pidRaw defaultConfig 0 0 = -144 ∧
      pidYaw defaultConfig 0 0 = -100 := by
  have he : pidError defaultConfig 0 = -180 := by decide
  have hraw : pidRaw defaultConfig 0 0 = -144 := by
    unfold pidRaw
    rw [he]
    show (2 / 5 : ℚ) * ((-180 : Int) : ℚ) +
        (2 / 5 : ℚ) * (((-180 : Int) : ℚ) - ((0 : Int) : ℚ)) = -144
    norm_num
  have hyaw : pidYaw defaultConfig 0 0 = -100 := by
    unfold pidYaw qclamp truncQ
    rw [hraw]
    norm_num [min_def, max_def]
    rw [show ((-100 : ℚ)) = ((-100 : Int) : ℚ) by norm_num]
    exact Int.ceil_intCast _
  exact ⟨he, hraw, hyaw⟩

/-- C6: for every configuration (hence every choice of gains) and every
integer pair of target x and previous error, the clamped yaw speed of the
PID axis computation lies in [-100, 100]: the clamp saturates rather than
wrapping. -/
theorem C6_yaw_always_clamped (cfg : Config) (x prevError : Int) :
    -100 ≤ pidYaw cfg x prevError ∧ pidYaw cfg x prevError ≤ 100 := by
  unfold pidYaw
  have h := qclamp_range (pidRaw cfg x prevError)
  exact truncQ_range h.1 h.2

/-- C1 counterexample: with the shipped configuration (fb_min = 3000,
fb_max = 5000, fb_speed = 25), the boundary areas 3000 and 5000 both
produce forward/back speed 0, not +fb_speed and -fb_speed as the claim
states: every distance-band test is strict, so neither boundary matches
any band and fb keeps its initial value 0. -/
theorem C1_counterexample :
    (trackFace defaultConfig ((180, 120), 3000) 0).1.fb = 0 ∧
      (trackFace defaultConfig ((180, 120), 5000) 0).1.fb = 0 ∧
      defaultConfig.fbSpeed ≠ 0 := by
  decide

/-- C1 (amended): for every configuration with 0 < fb_min < fb_max, the
boundary areas area = fb_min and area = fb_max match none of the three
distance bands, so the forward/back speed sent is the initialised 0 —
the boundaries behave as part of the dead zone, not as approach and
retreat commands. -/
theorem C1_boundary_gives_zero (cfg : Config) (x y prevError : Int)
    (h0 : 0 < cfg.fbMin) (h1 : cfg.fbMin < cfg.fbMax) :
    (trackFace cfg ((x, y), cfg.fbMin) prevError).1.fb = 0 ∧
      (trackFace cfg ((x, y), cfg.fbMax) prevError).1.fb = 0 := by
  constructor <;>
  · simp only [trackFace]
    rw [if_neg (by omega), if_neg (by omega), if_neg (by omega), if_neg (by omega)]
    exact sendTail_fb ..

/-- C1 witness: the amended boundary statement instantiated at the
shipped configuration. -/
theorem C1_boundary_gives_zero_witness :
    ((0 : Int) < defaultConfig.fbMin ∧ defaultConfig.fbMin < defaultConfig.fbMax) ∧
      (trackFace defaultConfig ((180, 120), defaultConfig.fbMin) 0).1.fb = 0 ∧
      (trackFace defaultConfig ((180, 120), defaultConfig.fbMax) 0).1.fb = 0 :=
  ⟨⟨by decide, by decide⟩,
    C1_boundary_gives_zero defaultConfig 180 120 0 (by decide) (by decide)⟩

/-- Helper: when the area matches none of the three distance bands and is
not 0, track_face falls through to the common tail with the initial
fb = 0. -/
theorem trackFace_fallthrough (cfg : Config) (x y area prevError : Int)
    (h1 : ¬(cfg.fbMin < area ∧ area < cfg.fbMax)) (h2 : ¬(area > cfg.fbMax))
    (h3 : ¬(0 < area ∧ area < cfg.fbMin)) (h4 : area ≠ 0) :
    trackFace cfg ((x, y), area) prevError =
      sendTail x 0 (pidYaw cfg x prevError) (pidError cfg x) := by
  simp only [trackFace]
  rw [if_neg h1, if_neg h2, if_neg h3, if_neg h4]

/-- C2 counterexample: a negative area is not routed to the search
branch.  With face_info = ((10, 0), -5) the cycle sends the normal
tracking command (0, 0, 0, -100) and returns the unreset error -170,
instead of the search command (0, 0, 0, search_speed) with error 0. -/
theorem C2_counterexample :
    trackFace defaultConfig ((10, 0), -5) 0 = (⟨0, 0, 0, -100⟩, -170) ∧
      trackFace defaultConfig ((10, 0), -5) 0 ≠
        (⟨0, 0, 0, defaultConfig.searchSpeed⟩, 0) := by
  have he : pidError defaultConfig 10 = -170 := by decide
  have hraw : pidRaw defaultConfig 10 0 = -136 := by
    unfold pidRaw
    rw [he]
    show (2 / 5 : ℚ) * ((-170 : Int) : ℚ) +
        (2 / 5 : ℚ) * (((-170 : Int) : ℚ) - ((0 : Int) : ℚ)) = -136
    norm_num
  have hyaw : pidYaw defaultConfig 10 0 = -100 := by
    unfold pidYaw qclamp truncQ
    rw [hraw]
    norm_num [min_def, max_def]
    rw [show ((-100 : ℚ)) = ((-100 : Int) : ℚ) by norm_num]
    exact Int.ceil_intCast _
  have ht : trackFace defaultConfig ((10, 0), -5) 0 = (⟨0, 0, 0, -100⟩, -170) := by
    rw [trackFace_fallthrough defaultConfig 10 0 (-5) 0 (by decide) (by decide)
      (by decide) (by decide)]
    unfold sendTail
    rw [if_neg (by decide), hyaw, he]
  refine ⟨ht, ?_⟩
  rw [ht]
  decide

/-- C2 (amended): for every configuration with 0 ≤ fb_min ≤ fb_max, a
negative area matches no distance band and is not the search sentinel:
track_face falls through with fb = 0 and executes the ordinary
send-and-return tail (yaw and error reset only when x = 0), rather than
emitting the search rotation and resetting the error. -/
theorem C2_negative_area_normal_command (cfg : Config) (x y area prevError : Int)
    (hneg : area < 0) (h0 : 0 ≤ cfg.fbMin) (h1 : cfg.fbMin ≤ cfg.fbMax) :
    trackFace cfg ((x, y), area) prevError =
      sendTail x 0 (pidYaw cfg x prevError) (pidError cfg x) :=
  trackFace_fallthrough cfg x y area prevError (by omega) (by omega) (by omega) (by omega)

/-- C2 witness: the amended negative-area statement instantiated at the
shipped configuration and face_info = ((10, 0), -5). -/
theorem C2_negative_area_normal_command_witness :
    ((-5 : Int) < 0 ∧ (0 : Int) ≤ defaultConfig.fbMin ∧
        defaultConfig.fbMin ≤ defaultConfig.fbMax) ∧
      trackFace defaultConfig ((10, 0), -5) 0 =
        sendTail 10 0 (pidYaw defaultConfig 10 0) (pidError defaultConfig 10) :=
  ⟨⟨by decide, by decide, by decide⟩,
    C2_negative_area_normal_command defaultConfig 10 0 (-5) 0 (by decide) (by decide)
      (by decide)⟩

/-- A configuration violating the documented invariant fb_min < fb_max,
used to exercise the startup gates. -/
def invalidConfig : Config := { defaultConfig with fbMin := 5000, fbMax := 3000 }

/-- C3 counterexample: with fb_min = 5000 and fb_max = 3000 (an invalid
configuration), a healthy battery and one loaded encoding, the startup
gates of main() let the program proceed to the control loop: no
configuration validation exists. -/
theorem C3_counterexample :
    invalidConfig.fbMax ≤ invalidConfig.fbMin ∧
      startupAborts invalidConfig 100 1 = false := by
  decide

/-- C3 (amended): startup aborts only on low battery or on an empty set
of loaded encodings; it performs no configuration validation, so for
every configuration — valid or not — with battery at least MIN_BATTERY
and at least one encoding, the program begins cycling. -/
theorem C3_startup_never_validates_config (cfg : Config) (battery : Int) (n : Nat)
    (hb : cfg.minBattery ≤ battery) (hn : n ≠ 0) :
    startupAborts cfg battery n = false := by
  unfold startupAborts
  rw [if_neg (by omega), if_neg hn]

/-- C3 witness: the amended no-validation statement instantiated at the
invalid configuration fb_min = 5000, fb_max = 3000. -/
theorem C3_startup_never_validates_config_witness :
    (invalidConfig.minBattery ≤ 100 ∧ (1 : Nat) ≠ 0) ∧
      startupAborts invalidConfig 100 1 = false :=
  ⟨⟨by decide, by decide⟩,
    C3_startup_never_validates_config invalidConfig 100 1 (by decide) (by decide)⟩

/-- C8: for every configuration with 0 ≤ fb_min ≤ fb_max and every x, y
and previous error, a selected target of area 0 makes track_face take the
search branch: the command sent is (0, 0, 0, search_speed) and the
returned error is 0 regardless of the prior error. -/
theorem C8_zero_area_searches (cfg : Config) (x y prevError : Int)
    (h0 : 0 ≤ cfg.fbMin) (h1 : cfg.fbMin ≤ cfg.fbMax) :
    trackFace cfg ((x, y), 0) prevError = (⟨0, 0, 0, cfg.searchSpeed⟩, 0) := by
  simp only [trackFace]
  rw [if_neg (by omega), if_neg (by omega), if_neg (by omega), if_pos trivial]

/-- C8 witness: the zero-area search statement instantiated at the
shipped configuration, x = 7, y = 9 and previous error -3. -/
theorem C8_zero_area_searches_witness :
    ((0 : Int) ≤ defaultConfig.fbMin ∧ defaultConfig.fbMin ≤ defaultConfig.fbMax) ∧
      trackFace defaultConfig ((7, 9), 0) (-3) =
        (⟨0, 0, 0, defaultConfig.searchSpeed⟩, 0) :=
  ⟨⟨by decide, by decide⟩, C8_zero_area_searches defaultConfig 7 9 (-3) (by decide) (by decide)⟩

/-- C10: a face_info with x = 0 but nonzero area does not take the search
branch: the command sent has lateral, vertical and yaw components 0 (the
yaw is forced to 0 by the x == 0 reset, not set to search_speed) and the
returned error is 0, while the forward/back component still follows the
distance band — in particular it is +fb_speed when 0 < area < fb_min ≤
fb_max. -/
theorem C10_zero_x_nonzero_area (cfg : Config) (y area prevError : Int)
    (hne : area ≠ 0) :
    ((trackFace cfg ((0, y), area) prevError).1.lr = 0 ∧
      (trackFace cfg ((0, y), area) prevError).1.ud = 0 ∧
      (trackFace cfg ((0, y), area) prevError).1.yaw = 0 ∧
      (trackFace cfg ((0, y), area) prevError).2 = 0) ∧
    (0 < area → area < cfg.fbMin → cfg.fbMin ≤ cfg.fbMax →
      (trackFace cfg ((0, y), area) prevError).1.fb = cfg.fbSpeed) := by
  constructor
  · have htail : ∀ fb s e : Int, sendTail 0 fb s e = (⟨0, fb, 0, 0⟩, 0) := by
      intro fb s e
      unfold sendTail
      rw [if_pos rfl]
    simp only [trackFace]
    split_ifs <;> (rw [htail]; exact ⟨rfl, rfl, rfl, rfl⟩)
  · intro ha1 ha2 ha3
    simp only [trackFace]
    rw [if_neg (by omega), if_neg (by omega), if_pos ⟨ha1, ha2⟩]
    exact sendTail_fb ..

/-- C10 witness: the non-atomic sentinel statement instantiated at the
shipped configuration with y = 5, area = 100 and previous error 7. -/
theorem C10_zero_x_nonzero_area_witness :
    ((100 : Int) ≠ 0) ∧
      (((trackFace defaultConfig ((0, 5), 100) 7).1.lr = 0 ∧
        (trackFace defaultConfig ((0, 5), 100) 7).1.ud = 0 ∧
        (trackFace defaultConfig ((0, 5), 100) 7).1.yaw = 0 ∧
        (trackFace defaultConfig ((0, 5), 100) 7).2 = 0) ∧
      ((0 : Int) < 100 → (100 : Int) < defaultConfig.fbMin →
        defaultConfig.fbMin ≤ defaultConfig.fbMax →
        (trackFace defaultConfig ((0, 5), 100) 7).1.fb = defaultConfig.fbSpeed)) :=
  ⟨by decide, C10_zero_x_nonzero_area defaultConfig 5 100 7 (by decide)⟩

/-- Helper: the selection loop ignores unrecognized detections. -/
theorem selStep_foldl_unrecognized (l : List Detection) (acc : TargetInfo × Option ℚ)
    (h : ∀ d ∈ l, d.recognized = false) : l.foldl selStep acc = acc := by
  induction l generalizing acc with
  | nil => rfl
  | cons d ds ih =>
      have hd : d.recognized = false := h d (List.mem_cons_self d ds)
      have hstep : selStep acc d = acc := by
        unfold selStep
        rw [hd]
        simp
      rw [List.foldl_cons, hstep]
      exact ih acc fun e he => h e (List.mem_cons_of_mem d he)

/-- Helper: once the best distance is at most every remaining recognized
distance, the rest of the selection loop changes nothing (ties never
displace the stored best, which keeps selection first-occurrence
stable). -/
theorem selStep_foldl_skip (l : List Detection) (info : TargetInfo) (b : ℚ)
    (h : ∀ e ∈ l, e.recognized = true → b ≤ e.dist) :
    l.foldl selStep (info, some b) = (info, some b) := by
  induction l with
  | nil => rfl
  | cons d ds ih =>
      have hstep : selStep (info, some b) d = (info, some b) := by
        unfold selStep
        cases hrec : d.recognized with
        | false => simp
        | true =>
            have hb : b ≤ d.dist := h d (List.mem_cons_self d ds) hrec
            simp [not_lt.mpr hb]
      rw [List.foldl_cons, hstep]
      exact ih fun e he hr => h e (List.mem_cons_of_mem d he) hr

/-- Helper predicate: the stored best distance is still above q (or still
the initial infinity). -/
def BelowBest (q : ℚ) : Option ℚ → Prop
  | none => True
  | some b => q < b

/-- Helper: while every recognized detection seen so far has distance
strictly above q, the stored best distance stays above q (or infinite). -/
theorem selStep_foldl_above (l : List Detection) (q : ℚ) (acc : TargetInfo × Option ℚ)
    (hl : ∀ e ∈ l, e.recognized = true → q < e.dist) (hacc : BelowBest q acc.2) :
    BelowBest q (l.foldl selStep acc).2 := by
  induction l generalizing acc with
  | nil => exact hacc
  | cons d ds ih =>
      rw [List.foldl_cons]
      refine ih (selStep acc d) (fun e he hr => hl e (List.mem_cons_of_mem d he) hr) ?_
      unfold selStep
      cases hrec : d.recognized with
      | false => exact hacc
      | true =>
          have hd : q < d.dist := hl d (List.mem_cons_self d ds) hrec
          cases hb : acc.2 with
          | none => simpa [hb, BelowBest] using hd
          | some b =>
              by_cases hlt : d.dist < b
              · simpa [hb, hlt, BelowBest] using hd
              · rw [hb] at hacc
                simpa [hb, hlt, BelowBest] using hacc

/-- Helper: a recognized detection whose distance beats the stored best
(or meets the initial infinity) is installed as the new best. -/
theorem selStep_installs (acc : TargetInfo × Option ℚ) (d : Detection)
    (hrec : d.recognized = true) (hacc : BelowBest d.dist acc.2) :
    selStep acc d = (((d.centerX, d.centerY), d.area), some d.dist) := by
  unfold selStep
  rw [hrec]
  cases hb : acc.2 with
  | none => simp
  | some b =>
      rw [hb] at hacc
      simp only [BelowBest] at hacc
      simp [hacc]

/-- C9: for every detection list in which no detection is recognized —
including the empty list and the case of an empty known-identity set,
both of which leave every recognized flag false — the target selection
returns the sentinel center (0, 0) with area 0. -/
theorem C9_no_recognition_gives_sentinel (dets : List Detection)
    (h : ∀ d ∈ dets, d.recognized = false) :
    selectTarget dets = ((0, 0), 0) := by
  unfold selectTarget
  rw [selStep_foldl_unrecognized dets _ h]

/-- C9 witness: the sentinel statement instantiated at a singleton list
holding one unrecognized detection. -/
theorem C9_no_recognition_gives_sentinel_witness :
    (∀ d ∈ [(⟨1, 9, 8, 2, false, 5⟩ : Detection)], d.recognized = false) ∧
      selectTarget [(⟨1, 9, 8, 2, false, 5⟩ : Detection)] = ((0, 0), 0) :=
  ⟨by decide, C9_no_recognition_gives_sentinel _ (by decide)⟩

/-- C7: for every detection list split as l1 ++ d :: l2 where d is
recognized, every recognized detection before d has strictly larger
distance, and every recognized detection after d has distance at least
that of d, the target selection returns the center and area of d: the
strictly lowest recognition distance wins, and on equal distances the
first-encountered detection is kept. -/
theorem C7_lowest_distance_first_wins (l1 l2 : List Detection) (d : Detection)
    (hrec : d.recognized = true)
    (hbefore : ∀ e ∈ l1, e.recognized = true → d.dist < e.dist)
    (hafter : ∀ e ∈ l2, e.recognized = true → d.dist ≤ e.dist) :
    selectTarget (l1 ++ d :: l2) = ((d.centerX, d.centerY), d.area) := by
  unfold selectTarget
  rw [List.foldl_append, List.foldl_cons]
  have h1 : BelowBest d.dist (l1.foldl selStep (((0, 0), 0), none)).2 :=
    selStep_foldl_above l1 d.dist _ hbefore trivial
  rw [selStep_installs _ d hrec h1, selStep_foldl_skip l2 _ d.dist hafter]

/-- C7 witness: three recognized detections with distances 2, 1, 1; the
second is returned — it strictly beats the first and the tying third
does not displace it. -/
theorem C7_lowest_distance_first_wins_witness :
    ((⟨0, 40, 20, 20, true, 1⟩ : Detection).recognized = true ∧
      (∀ e ∈ [(⟨0, 20, 10, 10, true, 2⟩ : Detection)], e.recognized = true →
        (⟨0, 40, 20, 20, true, 1⟩ : Detection).dist < e.dist) ∧
      (∀ e ∈ [(⟨0, 60, 30, 30, true, 1⟩ : Detection)], e.recognized = true →
        (⟨0, 40, 20, 20, true, 1⟩ : Detection).dist ≤ e.dist)) ∧
      selectTarget [⟨0, 20, 10, 10, true, 2⟩, ⟨0, 40, 20, 20, true, 1⟩,
        ⟨0, 60, 30, 30, true, 1⟩] = ((30, 10), 400) :=
  ⟨⟨rfl, by decide, by decide⟩,
    C7_lowest_distance_first_wins [⟨0, 20, 10, 10, true, 2⟩] [⟨0, 60, 30, 30, true, 1⟩]
      ⟨0, 40, 20, 20, true, 1⟩ rfl (by decide) (by decide)⟩

/-- Helper: the selection loop either leaves the initial best_info
untouched or returns the center and area of some recognized detection of
the list. -/
theorem selStep_foldl_cases (l : List Detection) (acc : TargetInfo × Option ℚ) :
    (l.foldl selStep acc).1 = acc.1 ∨
      ∃ d ∈ l, d.recognized = true ∧
        (l.foldl selStep acc).1 = ((d.centerX, d.centerY), d.area) := by
  induction l generalizing acc with
  | nil => exact Or.inl rfl
  | cons d ds ih =>
      rw [List.foldl_cons]
      have hstep : (selStep acc d).1 = acc.1 ∨
          (d.recognized = true ∧ (selStep acc d).1 = ((d.centerX, d.centerY), d.area)) := by
        unfold selStep
        cases hrec : d.recognized with
        | false => exact Or.inl rfl
        | true =>
            cases hb : acc.2 with
            | none => exact Or.inr ⟨rfl, by simp [hb]⟩
            | some b =>
                by_cases hlt : d.dist < b
                · exact Or.inr ⟨rfl, by simp [hb, hlt]⟩
                · exact Or.inl (by simp [hb, hlt])
      rcases ih (selStep acc d) with h | ⟨e, he, herec, heq⟩
      · rcases hstep with h2 | ⟨hrec, h2⟩
        · exact Or.inl (h.trans h2)
        · exact Or.inr ⟨d, List.mem_cons_self d ds, hrec, h.trans h2⟩
      · exact Or.inr ⟨e, List.mem_cons_of_mem d he, herec, heq⟩

/-- C4 counterexample: the single recognized detection with bounding box
top = 0, right = 1, bottom = 1, left = 0 yields the selected target
center (0, 0) with area 1 — a nonzero area paired with the sentinel
center, so the pairing claimed atomic fails. -/
theorem C4_counterexample :
    (selectTarget [(⟨0, 1, 1, 0, true, 1⟩ : Detection)]).1 = (0, 0) ∧
      (selectTarget [(⟨0, 1, 1, 0, true, 1⟩ : Detection)]).2 ≠ 0 := by
  decide

/-- C4 (amended): the sentinel pairing holds for every detection list
whose recognized detections all have nonzero area and a center different
from (0, 0): then the selected target has center (0, 0) exactly when its
area is 0.  Without that restriction the pairing can break, e.g. a
recognized 1 x 1 box at the origin has center (0, 0) but area 1. -/
theorem C4_sentinel_pairing (dets : List Detection)
    (h : ∀ d ∈ dets, d.recognized = true →
      d.area ≠ 0 ∧ ¬(d.centerX = 0 ∧ d.centerY = 0)) :
    ((selectTarget dets).1 = (0, 0) ↔ (selectTarget dets).2 = 0) := by
  rcases selStep_foldl_cases dets (((0, 0), 0), none) with hs | ⟨d, hd, hrec, hs⟩
  · unfold selectTarget
    rw [hs]
    exact ⟨fun _ => rfl, fun _ => rfl⟩
  · have hprop := h d hd hrec
    unfold selectTarget
    rw [hs]
    constructor
    · intro hc
      exact absurd ⟨congrArg Prod.fst hc, congrArg Prod.snd hc⟩ hprop.2
    · intro ha
      exact absurd ha hprop.1

/-- C4 witness: the amended pairing statement instantiated at one
recognized detection with box (0, 20, 10, 10), whose center (15, 5) and
area 100 satisfy the restriction. -/
theorem C4_sentinel_pairing_witness :
    (∀ d ∈ [(⟨0, 20, 10, 10, true, 1⟩ : Detection)], d.recognized = true →
        d.area ≠ 0 ∧ ¬(d.centerX = 0 ∧ d.centerY = 0)) ∧
      ((selectTarget [(⟨0, 20, 10, 10, true, 1⟩ : Detection)]).1 = (0, 0) ↔
        (selectTarget [(⟨0, 20, 10, 10, true, 1⟩ : Detection)]).2 = 0) :=
  ⟨by decide, C4_sentinel_pairing _ (by decide)⟩

end Vtol
